import Mathlib

/-!
Verification development for the ShopAudit repository (an automated QA
checker for ecommerce product pages).

The TypeScript sources under `src/` are shallowly embedded as Lean
definitions.  Browser-driver effects (Playwright) are modelled as explicit
environment values: a `PageModel` describes what the driver would report for
each selector query, an `ErrorEnv` describes the events the page listeners
would capture during one visit, and navigation failure is an `Except.error`
carrying the thrown message.  Machine numbers that the code only counts with
are modelled as `Nat`; `config.retryAttempts` is modelled as `Int` because
the retry loop's behaviour on non-positive values is of interest.
-/

namespace ShopAudit

/-! ## Data model (src/types, `src/unnamed/part_002`) -/

/-- `TestConfig` from src/types (fields the core reads; viewport, headers and
cookies are browser-driver configuration and are not modelled). -/
structure TestConfig where
  baseUrl : String
  productUrls : List String
  timeout : Nat
  retryAttempts : Int
  headless : Bool
deriving Repr, DecidableEq

/-- The seven named boolean feature flags of a `ProductPageTestResult`,
in the declaration order of the TS interface (which is also the
`Object.entries` iteration order used to derive `missingElements`). -/
structure ProductElements where
  title : Bool
  price : Bool
  description : Bool
  addToCartButton : Bool
  variants : Bool
  availability : Bool
  metaInfo : Bool
deriving Repr, DecidableEq

/-- `ProductPageTestResult` from src/types. -/
structure ProductPageTestResult where
  url : String
  success : Bool
  loadTime : Nat
  elements : ProductElements
  missingElements : List String
  errors : List String
deriving Repr, DecidableEq

/-- The aggregate image counts of an `ImageTestResult`. -/
structure ImageCounts where
  total : Nat
  loaded : Nat
  failed : Nat
  broken : Nat
deriving Repr, DecidableEq

/-- Per-image detail record of an `ImageTestResult`. -/
structure ImageDetail where
  src : String
  alt : String
  width : Nat
  height : Nat
  status : String
  error : Option String
deriving Repr, DecidableEq

/-- `ImageTestResult` from src/types. -/
structure ImageTestResult where
  url : String
  success : Bool
  images : ImageCounts
  imageDetails : List ImageDetail
  errors : List String
deriving Repr, DecidableEq

/-- Console message severity levels. -/
inductive ConsoleLevel where
  | error
  | warning
  | info
deriving Repr, DecidableEq

/-- `ConsoleError` record from src/types. -/
structure ConsoleError where
  level : ConsoleLevel
  message : String
  source : String
  lineNumber : Option Nat
  columnNumber : Option Nat
  stack : Option String
deriving Repr, DecidableEq

/-- `NetworkError` record from src/types. -/
structure NetworkError where
  url : String
  status : Nat
  statusText : String
  method : String
  resourceType : String
deriving Repr, DecidableEq

/-- Resource kinds used by `ResourceError`. -/
inductive ResourceKind where
  | css
  | js
  | image
  | font
  | other
deriving Repr, DecidableEq

/-- `ResourceError` record from src/types. -/
structure ResourceError where
  url : String
  kind : ResourceKind
  error : String
deriving Repr, DecidableEq

/-- `ErrorTestResult` from src/types. -/
structure ErrorTestResult where
  url : String
  success : Bool
  consoleErrors : List ConsoleError
  networkErrors : List NetworkError
  resourceErrors : List ResourceError
  totalErrors : Nat
deriving Repr, DecidableEq

/-- The run-level summary of a `TestReport`. -/
structure Summary where
  criticalIssues : Nat
  warnings : Nat
  recommendations : List String
deriving Repr, DecidableEq

/-- `TestReport` from src/types. -/
structure TestReport where
  timestamp : String
  baseUrl : String
  totalTests : Nat
  passedTests : Nat
  failedTests : Nat
  totalDuration : Nat
  productPageResults : List ProductPageTestResult
  imageResults : List ImageTestResult
  errorResults : List ErrorTestResult
  summary : Summary
deriving Repr, DecidableEq

/-! ## ProductPageTester (src/src/core/ProductPageTester.ts)

The Playwright page handle is abstracted as a `PageModel`: `query` models
`page.$(selector)`, `queryAll` models `page.$$(selector)`, `title` models
`page.title()`, and `metaDescription` models
`page.$eval('meta[name="description"]', el => el.getAttribute('content'))`
with `none` for both a missing tag and a missing attribute (the `.catch`
and the `null` return respectively). -/

/-- What the driver reports about one matched element: its text content,
visibility and enabled state. -/
structure Element where
  text : String
  visible : Bool
  enabled : Bool
deriving Repr

/-- Abstraction of one loaded Playwright page. -/
structure PageModel where
  query : String → Option Element
  queryAll : String → List Element
  title : String
  metaDescription : Option String

/-- Fault injection for the per-probe `try`/`catch` blocks: `some msg`
means the driver threw with message `msg` while that probe ran (before the
probe could set its flag, matching the source where every assignment to the
flag is the last statement before `return`). -/
structure ProbeFaults where
  title : Option String
  price : Option String
  description : Option String
  addToCartButton : Option String
  variants : Option String
  availability : Option String
  metaInfo : Option String
deriving Repr, DecidableEq

/-- No injected driver faults. -/
def noFaults : ProbeFaults := ⟨none, none, none, none, none, none, none⟩

/-- Selector list of `testProductTitle`. -/
def titleSelectors : List String :=
  ["h1[class*=\"product\"]", "h1[class*=\"title\"]", ".product-title",
   ".product-name", "[data-testid=\"product-title\"]", "h1", ".title"]

/-- Selector list of `testProductPrice`. -/
def priceSelectors : List String :=
  ["[class*=\"price\"]", "[class*=\"Price\"]", ".product-price", ".price",
   "[data-testid=\"price\"]", "[data-price]", ".current-price", ".regular-price"]

/-- Selector list of `testProductDescription`. -/
def descSelectors : List String :=
  ["[class*=\"description\"]", "[class*=\"Description\"]", ".product-description",
   ".description", "[data-testid=\"description\"]", ".product-details", ".product-info"]

/-- Selector list of `testAddToCartButton`. -/
def buttonSelectors : List String :=
  ["[class*=\"add-to-cart\"]", "[class*=\"AddToCart\"]", ".add-to-cart",
   ".addtocart", "[data-testid=\"add-to-cart\"]", "button[type=\"submit\"]",
   "input[type=\"submit\"]", "[class*=\"buy\"]", "[class*=\"purchase\"]"]

/-- Selector list of `testProductVariants`. -/
def variantSelectors : List String :=
  ["[class*=\"variant\"]", "[class*=\"option\"]", ".product-variants",
   ".product-options", "select[class*=\"variant\"]", "select[class*=\"option\"]",
   "[data-testid=\"variant\"]", "[data-testid=\"option\"]"]

/-- Selector list of `testProductAvailability` (out-of-stock indicators). -/
def outOfStockSelectors : List String :=
  ["[class*=\"out-of-stock\"]", "[class*=\"unavailable\"]", ".out-of-stock",
   ".unavailable", "[data-testid=\"out-of-stock\"]"]

/-- Leading and trailing whitespace removal on character lists. -/
def trimChars (cs : List Char) : List Char :=
  ((cs.dropWhile Char.isWhitespace).reverse.dropWhile Char.isWhitespace).reverse

/-- JavaScript `String.prototype.trim`. -/
def jsTrim (s : String) : String :=
  ⟨trimChars s.data⟩

/-- The currency symbols of the price regex character class. -/
def isCurrencySymbol (c : Char) : Bool :=
  c = '$' || c = '€' || c = '£' || c = '¥' || c = '₹'

/-- Remainders after the optional currency-symbol part of the price regex
(the empty match is always available; one symbol character may be consumed). -/
def optCurrencySymbol : List Char → List (List Char)
  | [] => [[]]
  | c :: rest => if isCurrencySymbol c then [c :: rest, rest] else [c :: rest]

/-- Remainders after the whitespace-star part of the price regex. -/
def whitespaceRemainders : List Char → List (List Char)
  | [] => [[]]
  | c :: rest =>
    (c :: rest) :: (if c.isWhitespace then whitespaceRemainders rest else [])

/-- Remainders after the one-or-more-digits part of the price regex. -/
def digitsRemainders : List Char → List (List Char)
  | [] => []
  | c :: rest => if c.isDigit then rest :: digitsRemainders rest else []

/-- Remainders after the optional decimal part (a separator followed by two
digits) of the price regex. -/
def decimalRemainders (cs : List Char) : List (List Char) :=
  cs :: (match cs with
    | p :: d1 :: d2 :: rest =>
      if (p = '.' || p = ',') && d1.isDigit && d2.isDigit then [rest] else []
    | _ => [])

/-- A match of the price regex starting exactly at the head of `cs`
(a match need not reach the end of the string). -/
def matchPriceAt (cs : List Char) : Bool :=
  (optCurrencySymbol cs).any fun cs1 =>
    (whitespaceRemainders cs1).any fun cs2 =>
      (digitsRemainders cs2).any fun cs3 =>
        !(decimalRemainders cs3).isEmpty

/-- JavaScript `regex.test`: a match may start at any position. -/
def priceRegexTest (s : String) : Bool :=
  s.data.tails.any matchPriceAt

/-- `isValidPrice` from ProductPageTester.ts: tests the (unanchored) price
regex against the trimmed text. -/
def isValidPrice (text : String) : Bool :=
  priceRegexTest (jsTrim text)

/-- `testProductTitle`: first selector whose matched element has non-empty
trimmed text. -/
def testProductTitle (page : PageModel) (fault : Option String)
    (result : ProductPageTestResult) : ProductPageTestResult :=
  match fault with
  | some msg => { result with errors := result.errors ++ ["Title test failed: " ++ msg] }
  | none =>
    if titleSelectors.any (fun selector =>
        match page.query selector with
        | some el => decide (0 < (jsTrim el.text).length)
        | none => false) then
      { result with elements := { result.elements with title := true } }
    else result

/-- `testProductPrice`: first selector whose matched element's text passes
`isValidPrice`. -/
def testProductPrice (page : PageModel) (fault : Option String)
    (result : ProductPageTestResult) : ProductPageTestResult :=
  match fault with
  | some msg => { result with errors := result.errors ++ ["Price test failed: " ++ msg] }
  | none =>
    if priceSelectors.any (fun selector =>
        match page.query selector with
        | some el => isValidPrice el.text
        | none => false) then
      { result with elements := { result.elements with price := true } }
    else result

/-- `testProductDescription`: first selector whose matched element's trimmed
text is longer than 10 characters. -/
def testProductDescription (page : PageModel) (fault : Option String)
    (result : ProductPageTestResult) : ProductPageTestResult :=
  match fault with
  | some msg => { result with errors := result.errors ++ ["Description test failed: " ++ msg] }
  | none =>
    if descSelectors.any (fun selector =>
        match page.query selector with
        | some el => decide (10 < (jsTrim el.text).length)
        | none => false) then
      { result with elements := { result.elements with description := true } }
    else result

/-- `testAddToCartButton`: first selector whose matched element is both
visible and enabled. -/
def testAddToCartButton (page : PageModel) (fault : Option String)
    (result : ProductPageTestResult) : ProductPageTestResult :=
  match fault with
  | some msg => { result with errors := result.errors ++ ["Add to cart button test failed: " ++ msg] }
  | none =>
    if buttonSelectors.any (fun selector =>
        match page.query selector with
        | some el => el.visible && el.enabled
        | none => false) then
      { result with elements := { result.elements with addToCartButton := true } }
    else result

/-- `testProductVariants`: true when some variant selector matches one or
more elements, and also true by default when none match. -/
def testProductVariants (page : PageModel) (fault : Option String)
    (result : ProductPageTestResult) : ProductPageTestResult :=
  match fault with
  | some msg => { result with errors := result.errors ++ ["Variants test failed: " ++ msg] }
  | none =>
    if variantSelectors.any (fun selector => decide (0 < (page.queryAll selector).length)) then
      { result with elements := { result.elements with variants := true } }
    else
      { result with elements := { result.elements with variants := true } }

/-- `testProductAvailability`: availability is good unless a visible
out-of-stock indicator is found. -/
def testProductAvailability (page : PageModel) (fault : Option String)
    (result : ProductPageTestResult) : ProductPageTestResult :=
  match fault with
  | some msg => { result with errors := result.errors ++ ["Availability test failed: " ++ msg] }
  | none =>
    let isOutOfStock := outOfStockSelectors.any fun selector =>
      match page.query selector with
      | some el => el.visible
      | none => false
    { result with elements := { result.elements with availability := !isOutOfStock } }

/-- `testMetaInformation`: the page title and the meta-description content
must both be non-empty. -/
def testMetaInformation (page : PageModel) (fault : Option String)
    (result : ProductPageTestResult) : ProductPageTestResult :=
  match fault with
  | some msg => { result with errors := result.errors ++ ["Meta information test failed: " ++ msg] }
  | none =>
    match page.metaDescription with
    | some metaDescription =>
      if decide (0 < (jsTrim page.title).length) && decide (0 < (jsTrim metaDescription).length) then
        { result with elements := { result.elements with metaInfo := true } }
      else result
    | none => result

/-- The seven probes of `testProductPage`, in source order. -/
def runProbes (page : PageModel) (faults : ProbeFaults)
    (result : ProductPageTestResult) : ProductPageTestResult :=
  testMetaInformation page faults.metaInfo
    (testProductAvailability page faults.availability
      (testProductVariants page faults.variants
        (testAddToCartButton page faults.addToCartButton
          (testProductDescription page faults.description
            (testProductPrice page faults.price
              (testProductTitle page faults.title result))))))

/-- `Object.values(result.elements).every(present => present)`. -/
def allElementsPresent (e : ProductElements) : Bool :=
  e.title && e.price && e.description && e.addToCartButton &&
    e.variants && e.availability && e.metaInfo

/-- `Object.entries(result.elements).filter(([_, present]) => !present)
.map(([element]) => element)`, in interface declaration order. -/
def falseFlagNames (e : ProductElements) : List String :=
  (if e.title then [] else ["title"]) ++
  (if e.price then [] else ["price"]) ++
  (if e.description then [] else ["description"]) ++
  (if e.addToCartButton then [] else ["addToCartButton"]) ++
  (if e.variants then [] else ["variants"]) ++
  (if e.availability then [] else ["availability"]) ++
  (if e.metaInfo then [] else ["metaInfo"])

/-- `testProductPage` from ProductPageTester.ts.  `nav` is the outcome of
`page.goto` (`Except.error msg` models the navigation throwing with message
`msg`, in which case control jumps to the `catch` block and the probes and
the success / missingElements derivation never run); `elapsed` is the
wall-clock load time recorded after a successful navigation. -/
def testProductPage (nav : Except String PageModel) (faults : ProbeFaults)
    (elapsed : Nat) (url : String) : ProductPageTestResult :=
  let result : ProductPageTestResult :=
    { url := url, success := false, loadTime := 0,
      elements := ⟨false, false, false, false, false, false, false⟩,
      missingElements := [], errors := [] }
  match nav with
  | Except.error e =>
    { result with errors := result.errors ++ ["Page load failed: " ++ e] }
  | Except.ok page =>
    let r1 := { result with loadTime := elapsed }
    let r2 := runProbes page faults r1
    let success := allElementsPresent r2.elements && r2.errors.isEmpty
    let r3 := { r2 with success := success }
    if success then r3
    else { r3 with missingElements := falseFlagNames r3.elements }

/-! ## ErrorDetector (src/src/core/ErrorDetector.ts)

The four page listeners are modelled by an `ErrorEnv` describing the events
the driver would deliver during one visit: console messages, uncaught page
errors, HTTP responses, and failed requests.  `navError = some msg` models
`page.goto` throwing with message `msg`; the lists then describe the events
that had already been delivered before the throw.  `additionalErrors` models
what `page.evaluate` returns for the injected in-page handlers. -/

/-- A console message event (`page.on('console')`).  `locationUrl` is
`msg.location().url`, with the empty string standing for a missing URL (the
source falls back to `"unknown"` on a falsy value). -/
structure ConsoleMsgEvent where
  level : ConsoleLevel
  text : String
  locationUrl : String
  lineNumber : Option Nat
  columnNumber : Option Nat
deriving Repr, DecidableEq

/-- An uncaught page error event (`page.on('pageerror')`). -/
structure PageErrorEvent where
  message : String
  stack : Option String
deriving Repr, DecidableEq

/-- An HTTP response event (`page.on('response')`), with the method and
resource type of the originating request. -/
structure ResponseEvent where
  url : String
  status : Nat
  statusText : String
  method : String
  resourceType : String
deriving Repr, DecidableEq

/-- A failed request event (`page.on('requestfailed')`).  `errorText` is
`request.failure()?.errorText`; `none` or the empty string fall back to
`"Request failed"` in the source. -/
structure FailedRequestEvent where
  url : String
  resourceType : String
  errorText : Option String
deriving Repr, DecidableEq

/-- An entry of the array returned by the injected `page.evaluate` script. -/
structure AdditionalError where
  message : String
  source : String
deriving Repr, DecidableEq

/-- The events one page visit delivers to the listeners of `detectErrors`. -/
structure ErrorEnv where
  consoleEvents : List ConsoleMsgEvent
  pageErrorEvents : List PageErrorEvent
  responseEvents : List ResponseEvent
  requestFailedEvents : List FailedRequestEvent
  navError : Option String
  additionalErrors : List AdditionalError
deriving Repr, DecidableEq

/-- The console-listener handler: only `error` and `warning` levels are
recorded; a falsy location URL becomes `"unknown"`. -/
def consoleEventToError (m : ConsoleMsgEvent) : ConsoleError :=
  { level := m.level, message := m.text,
    source := if m.locationUrl = "" then "unknown" else m.locationUrl,
    lineNumber := m.lineNumber, columnNumber := m.columnNumber, stack := none }

/-- `error.stack?.split('\n')[1]?.trim() || 'unknown'`. -/
def pageErrorSource : Option String → String
  | none => "unknown"
  | some stack =>
    match (stack.splitOn "\n").get? 1 with
    | none => "unknown"
    | some line => if jsTrim line = "" then "unknown" else jsTrim line

/-- The pageerror-listener handler: recorded as a console error with the
second stack line as source. -/
def pageErrorToConsoleError (e : PageErrorEvent) : ConsoleError :=
  { level := ConsoleLevel.error, message := e.message,
    source := pageErrorSource e.stack,
    lineNumber := none, columnNumber := none, stack := e.stack }

/-- `getResourceType` from ErrorDetector.ts. -/
def getResourceType (playwrightType : String) : ResourceKind :=
  match playwrightType with
  | "stylesheet" => ResourceKind.css
  | "script" => ResourceKind.js
  | "image" => ResourceKind.image
  | "font" => ResourceKind.font
  | _ => ResourceKind.other

/-- The response-listener handler (only statuses ≥ 400 are recorded, which
`detectErrors` filters for). -/
def responseToNetworkError (r : ResponseEvent) : NetworkError :=
  { url := r.url, status := r.status, statusText := r.statusText,
    method := r.method, resourceType := r.resourceType }

/-- The requestfailed-listener handler. -/
def requestFailedToResourceError (r : FailedRequestEvent) : ResourceError :=
  { url := r.url, kind := getResourceType r.resourceType,
    error := match r.errorText with
      | some t => if t = "" then "Request failed" else t
      | none => "Request failed" }

/-- `detectErrors` from ErrorDetector.ts.  The three result lists collect the
listener outputs; order across distinct listeners is abstracted (each list
keeps its own event order).  On a successful navigation the additional
in-page errors are appended, `totalErrors` is recomputed as the sum of the
three list lengths, and success requires zero error-level console entries
and zero network errors with status ≥ 500.  On a navigation exception the
`catch` block appends a single `test-runner` console entry and increments
`totalErrors` (still zero at that point) directly. -/
def detectErrors (env : ErrorEnv) (url : String) : ErrorTestResult :=
  let consoleErrors :=
    (env.consoleEvents.filter fun m =>
      m.level = ConsoleLevel.error ∨ m.level = ConsoleLevel.warning).map consoleEventToError
    ++ env.pageErrorEvents.map pageErrorToConsoleError
  let networkErrors :=
    (env.responseEvents.filter fun r => 400 ≤ r.status).map responseToNetworkError
  let resourceErrors := env.requestFailedEvents.map requestFailedToResourceError
  match env.navError with
  | none =>
    let consoleErrors := consoleErrors ++ env.additionalErrors.map fun e =>
      { level := ConsoleLevel.error, message := e.message, source := e.source,
        lineNumber := none, columnNumber := none, stack := none }
    let totalErrors := consoleErrors.length + networkErrors.length + resourceErrors.length
    let criticalErrors := (consoleErrors.filter fun e => e.level = ConsoleLevel.error).length
    let networkFailures := (networkErrors.filter fun e => 500 ≤ e.status).length
    { url := url, success := criticalErrors = 0 && networkFailures = 0,
      consoleErrors := consoleErrors, networkErrors := networkErrors,
      resourceErrors := resourceErrors, totalErrors := totalErrors }
  | some msg =>
    { url := url, success := false,
      consoleErrors := consoleErrors ++
        [{ level := ConsoleLevel.error, message := "Page load failed: " ++ msg,
           source := "test-runner", lineNumber := none, columnNumber := none, stack := none }],
      networkErrors := networkErrors, resourceErrors := resourceErrors,
      totalErrors := 0 + 1 }

/-! ## TestRunner (src/src/core/TestRunner.ts) -/

/-- The observable outcome of one `runWithRetry` call: the returned value or
thrown error, the number of times the wrapped operation was invoked, and the
backoff delays (in ms) awaited between attempts.  A thrown `Option ε` of
`none` models the TypeScript `throw lastError!` firing with `lastError`
never assigned, i.e. throwing `undefined`. -/
structure RetryTrace (ε α : Type) where
  result : Except (Option ε) α
  calls : Nat
  delays : List Nat
deriving Repr

/-- The retry loop of `runWithRetry`: `remaining` counts the loop iterations
left (`retryAttempts - attempt + 1`), `attempt` is the 1-based attempt
number, and `lastError` is the last caught error.  After a failed attempt
with attempts remaining, a `1000 * attempt` ms delay is awaited. -/
def runWithRetryGo (testFn : Nat → Except ε α) (retryAttempts : Nat) :
    Nat → Nat → Option ε → RetryTrace ε α
  | 0, _, lastError => ⟨Except.error lastError, 0, []⟩
  | remaining + 1, attempt, _ =>
    match testFn attempt with
    | Except.ok v => ⟨Except.ok v, 1, []⟩
    | Except.error e =>
      let rest := runWithRetryGo testFn retryAttempts remaining (attempt + 1) (some e)
      ⟨rest.result, rest.calls + 1,
        (if attempt < retryAttempts then [1000 * attempt] else []) ++ rest.delays⟩

/-- `runWithRetry` from TestRunner.ts, with `retryAttempts` the configured
`config.retryAttempts` (an `Int`: the JS loop runs zero times when it is
non-positive) and `testFn n` the outcome of the wrapped operation's n-th
invocation. -/
def runWithRetry (retryAttempts : Int) (testFn : Nat → Except ε α) : RetryTrace ε α :=
  runWithRetryGo testFn retryAttempts.toNat retryAttempts.toNat 1 none

/-- First-occurrence-order deduplication, the behaviour of
`[...new Set(recommendations)]` (a JS `Set` iterates in insertion order). -/
def jsSetDedupGo (seen : List String) : List String → List String
  | [] => []
  | x :: xs =>
    if x ∈ seen then jsSetDedupGo seen xs
    else x :: jsSetDedupGo (x :: seen) xs

/-- `[...new Set(l)]`. -/
def jsSetDedup (l : List String) : List String :=
  jsSetDedupGo [] l

/-- Accumulator of `generateSummary`'s three forEach passes. -/
structure SummaryAcc where
  criticalIssues : Nat
  warnings : Nat
  recommendations : List String
deriving Repr, DecidableEq

/-- The product-page pass of `generateSummary`: each failed result is a
critical issue, with targeted recommendations for a missing add-to-cart
button and a missing price. -/
def scanProductResult (acc : SummaryAcc) (result : ProductPageTestResult) : SummaryAcc :=
  if result.success then acc
  else
    { acc with
      criticalIssues := acc.criticalIssues + 1,
      recommendations := acc.recommendations
        ++ (if result.missingElements.contains "addToCartButton" then
              ["Add-to-cart button is missing or non-functional"] else [])
        ++ (if result.missingElements.contains "price" then
              ["Product price is not displayed correctly"] else []) }

/-- The image pass of `generateSummary`: a result with `images.failed > 0`
is a warning and pushes a recommendation naming the failed count. -/
def scanImageResult (acc : SummaryAcc) (result : ImageTestResult) : SummaryAcc :=
  if 0 < result.images.failed then
    { acc with
      warnings := acc.warnings + 1,
      recommendations := acc.recommendations
        ++ ["Fix " ++ toString result.images.failed ++ " broken images"] }
  else acc

/-- The error pass of `generateSummary`: console errors are a warning,
network errors a critical issue, each with a fixed recommendation. -/
def scanErrorResult (acc : SummaryAcc) (result : ErrorTestResult) : SummaryAcc :=
  let acc1 :=
    if 0 < result.consoleErrors.length then
      { acc with
        warnings := acc.warnings + 1,
        recommendations := acc.recommendations ++ ["Fix JavaScript console errors"] }
    else acc
  if 0 < result.networkErrors.length then
    { acc1 with
      criticalIssues := acc1.criticalIssues + 1,
      recommendations := acc1.recommendations ++ ["Resolve network request failures"] }
  else acc1

/-- `generateSummary` from TestRunner.ts: three forEach passes over the
result lists, then duplicate removal via `[...new Set(...)]`. -/
def generateSummary (productPageResults : List ProductPageTestResult)
    (imageResults : List ImageTestResult) (errorResults : List ErrorTestResult) : Summary :=
  let acc0 : SummaryAcc := ⟨0, 0, []⟩
  let acc1 := productPageResults.foldl scanProductResult acc0
  let acc2 := imageResults.foldl scanImageResult acc1
  let acc3 := errorResults.foldl scanErrorResult acc2
  { criticalIssues := acc3.criticalIssues, warnings := acc3.warnings,
    recommendations := jsSetDedup acc3.recommendations }

/-- The three checkers' behaviour for a completed run: for each URL, the
value each of the three `runWithRetry`-wrapped checks eventually returned
(a run in which some check exhausted its retries throws and produces no
report, so it is outside this model). -/
structure CheckBehavior where
  product : String → ProductPageTestResult
  image : String → ImageTestResult
  error : String → ErrorTestResult

/-- One iteration of the per-URL loop of `runTests`: run the three checks,
append the results, and bump the passed/failed counters once per check. -/
def processUrl (behave : CheckBehavior) (results : TestReport) (url : String) : TestReport :=
  let productResult := behave.product url
  let imageResult := behave.image url
  let errorResult := behave.error url
  { results with
    productPageResults := results.productPageResults ++ [productResult],
    imageResults := results.imageResults ++ [imageResult],
    errorResults := results.errorResults ++ [errorResult],
    passedTests := results.passedTests
      + (if productResult.success then 1 else 0)
      + (if imageResult.success then 1 else 0)
      + (if errorResult.success then 1 else 0),
    failedTests := results.failedTests
      + (if productResult.success then 0 else 1)
      + (if imageResult.success then 0 else 1)
      + (if errorResult.success then 0 else 1) }

/-- `runTests` from TestRunner.ts for a run that completes: the initial
report fixes `totalTests = productUrls.length * 3`, the loop accumulates
results and counters, then the duration is recorded and the summary
derived. -/
def runTests (config : TestConfig) (behave : CheckBehavior)
    (timestamp : String) (duration : Nat) : TestReport :=
  let results : TestReport :=
    { timestamp := timestamp, baseUrl := config.baseUrl,
      totalTests := config.productUrls.length * 3,
      passedTests := 0, failedTests := 0, totalDuration := 0,
      productPageResults := [], imageResults := [], errorResults := [],
      summary := ⟨0, 0, []⟩ }
  let results := config.productUrls.foldl (processUrl behave) results
  let results := { results with totalDuration := duration }
  { results with
    summary := generateSummary results.productPageResults
      results.imageResults results.errorResults }

/-! ## CLI and HTTP entry points (`src/unnamed/part_003`, `src/unnamed/part_001`) -/

/-- `results.passedTests / results.totalTests` of the CLI test action,
computed in ℚ (JS floating-point division over these small counts agrees
with the exact rational value; `0 / 0` is NaN in JS, and NaN fails the
`>= 0.8` comparison just as `(0 : ℚ) / 0 = 0` does). -/
def cliSuccessRate (results : TestReport) : ℚ :=
  (results.passedTests : ℚ) / (results.totalTests : ℚ)

/-- The observable outcome of the CLI `test` command: the process exit code,
and whether any browser work began. -/
structure CliRunOutcome where
  exitCode : Nat
  browserLaunched : Bool
deriving Repr, DecidableEq

/-- The `test` command action of the CLI (`src/unnamed/part_003`): an empty
base URL (falsy string) or an empty product URL list exits with code 1
before the runner is created; otherwise the run executes and the exit code
is 0 exactly when the success rate reaches the 80% threshold. -/
def cliTestCommand (config : TestConfig) (behave : CheckBehavior)
    (timestamp : String) (duration : Nat) : CliRunOutcome :=
  if config.baseUrl = "" ∨ config.productUrls.length = 0 then
    ⟨1, false⟩
  else
    let results := runTests config behave timestamp duration
    ⟨if 0.8 ≤ cliSuccessRate results then 0 else 1, true⟩

/-- The observable outcome of the `POST /test` handler: the HTTP status
and whether any browser work began. -/
structure HttpResponse where
  status : Nat
  browserLaunched : Bool
deriving Repr, DecidableEq

/-- The `POST /test` handler (`src/unnamed/part_001`): a falsy `baseUrl`, a
missing `productUrls` (modelled as the empty list) or an empty `productUrls`
answers 400 before the runner is created. -/
def httpTestHandler (config : TestConfig) : HttpResponse :=
  if config.baseUrl = "" ∨ config.productUrls.length = 0 then ⟨400, false⟩
  else ⟨200, true⟩

/-! ## Specification-side definitions (for comparison with the code) -/

/-- Modelled from the spec: the flattened per-check outcomes of a run — for
each URL in order, the success flags of the product-page, image and error
checks (3 × N booleans).  The exit-code threshold is evaluated over these. -/
def checkOutcomes (urls : List String) (behave : CheckBehavior) : List Bool :=
  urls.flatMap fun url =>
    [(behave.product url).success, (behave.image url).success, (behave.error url).success]

/-- Modelled from the spec: `cs` contains a match of the currency pattern —
an optional currency symbol, optional whitespace, a number (one or more
digits), optionally followed by a decimal separator and two digits.  This is
the JavaScript `regex.test` reading: a match may start anywhere and need not
cover the whole string. -/
def specCurrencyMatch (cs : List Char) : Prop :=
  ∃ pre sym ws ds dec rest : List Char,
    cs = pre ++ sym ++ ws ++ ds ++ dec ++ rest ∧
    (sym = [] ∨ ∃ c, sym = [c] ∧ isCurrencySymbol c = true) ∧
    (∀ c ∈ ws, c.isWhitespace = true) ∧
    ds ≠ [] ∧ (∀ c ∈ ds, c.isDigit = true) ∧
    (dec = [] ∨ ∃ p d1 d2, dec = [p, d1, d2] ∧ (p = '.' ∨ p = ',') ∧
      d1.isDigit = true ∧ d2.isDigit = true)

/-! ## Concrete example inputs (used by counterexamples and witnesses) -/

/-- A page on which no selector matches anything at all. -/
def emptyPage : PageModel :=
  { query := fun _ => none, queryAll := fun _ => [], title := "", metaDescription := none }

/-- Spec scenario C's image result: 10 images, one broken (404), nine
loaded, none failed. -/
def imgBrokenOnly : ImageTestResult :=
  { url := "a", success := false, images := ⟨10, 9, 0, 1⟩, imageDetails := [], errors := [] }

/-- An image result with two failed images. -/
def imgFailedTwo : ImageTestResult :=
  { url := "a", success := false, images := ⟨10, 8, 2, 0⟩, imageDetails := [], errors := [] }

/-- A visit on which one 404 response was captured before navigation threw. -/
def errEnvNavFail : ErrorEnv :=
  { consoleEvents := [], pageErrorEvents := [],
    responseEvents := [⟨"a", 404, "Not Found", "GET", "image"⟩],
    requestFailedEvents := [], navError := some "timeout", additionalErrors := [] }

/-- A visit that navigated fine and captured one console error. -/
def errEnvOk : ErrorEnv :=
  { consoleEvents := [⟨ConsoleLevel.error, "boom", "", none, none⟩],
    pageErrorEvents := [], responseEvents := [], requestFailedEvents := [],
    navError := none, additionalErrors := [] }

/-- A passing product-page check result. -/
def ppPass : ProductPageTestResult :=
  { url := "a", success := true, loadTime := 100,
    elements := ⟨true, true, true, true, true, true, true⟩,
    missingElements := [], errors := [] }

/-- A passing image check result. -/
def imgPass : ImageTestResult :=
  { url := "a", success := true, images := ⟨0, 0, 0, 0⟩, imageDetails := [], errors := [] }

/-- A passing error-detection check result. -/
def errPass : ErrorTestResult :=
  { url := "a", success := true, consoleErrors := [], networkErrors := [],
    resourceErrors := [], totalErrors := 0 }

/-- A failing error-detection check result. -/
def errFail : ErrorTestResult :=
  { url := "a", success := false,
    consoleErrors := [⟨ConsoleLevel.error, "boom", "unknown", none, none, none⟩],
    networkErrors := [], resourceErrors := [], totalErrors := 1 }

/-- A valid two-URL configuration. -/
def cfgTwo : TestConfig :=
  { baseUrl := "https://s", productUrls := ["a", "b"], timeout := 30000,
    retryAttempts := 3, headless := true }

/-- A configuration whose base URL is empty. -/
def cfgNoBase : TestConfig :=
  { baseUrl := "", productUrls := ["a"], timeout := 30000,
    retryAttempts := 3, headless := true }

/-- Checker behaviour under which five of `cfgTwo`'s six checks pass (the
error check fails on the second URL). -/
def behaveFiveOfSix : CheckBehavior :=
  { product := fun _ => ppPass, image := fun _ => imgPass,
    error := fun u => if u = "b" then errFail else errPass }

/-! ## Probe bookkeeping: no probe touches `success` or `missingElements` -/

theorem testProductTitle_preserves (page : PageModel) (fault : Option String)
    (r : ProductPageTestResult) :
    (testProductTitle page fault r).success = r.success ∧
    (testProductTitle page fault r).missingElements = r.missingElements := by
  cases fault with
  | some msg => simp [testProductTitle]
  | none => simp only [testProductTitle]; split <;> simp

theorem testProductPrice_preserves (page : PageModel) (fault : Option String)
    (r : ProductPageTestResult) :
    (testProductPrice page fault r).success = r.success ∧
    (testProductPrice page fault r).missingElements = r.missingElements := by
  cases fault with
  | some msg => simp [testProductPrice]
  | none => simp only [testProductPrice]; split <;> simp

theorem testProductDescription_preserves (page : PageModel) (fault : Option String)
    (r : ProductPageTestResult) :
    (testProductDescription page fault r).success = r.success ∧
    (testProductDescription page fault r).missingElements = r.missingElements := by
  cases fault with
  | some msg => simp [testProductDescription]
  | none => simp only [testProductDescription]; split <;> simp

theorem testAddToCartButton_preserves (page : PageModel) (fault : Option String)
    (r : ProductPageTestResult) :
    (testAddToCartButton page fault r).success = r.success ∧
    (testAddToCartButton page fault r).missingElements = r.missingElements := by
  cases fault with
  | some msg => simp [testAddToCartButton]
  | none => simp only [testAddToCartButton]; split <;> simp

theorem testProductVariants_preserves (page : PageModel) (fault : Option String)
    (r : ProductPageTestResult) :
    (testProductVariants page fault r).success = r.success ∧
    (testProductVariants page fault r).missingElements = r.missingElements := by
  cases fault with
  | some msg => simp [testProductVariants]
  | none => simp only [testProductVariants]; split <;> simp

theorem testProductAvailability_preserves (page : PageModel) (fault : Option String)
    (r : ProductPageTestResult) :
    (testProductAvailability page fault r).success = r.success ∧
    (testProductAvailability page fault r).missingElements = r.missingElements := by
  cases fault with
  | some msg => simp [testProductAvailability]
  | none => simp [testProductAvailability]

theorem testMetaInformation_preserves (page : PageModel) (fault : Option String)
    (r : ProductPageTestResult) :
    (testMetaInformation page fault r).success = r.success ∧
    (testMetaInformation page fault r).missingElements = r.missingElements := by
  cases fault with
  | some msg => simp [testMetaInformation]
  | none =>
    simp only [testMetaInformation]
    split <;> (try split) <;> simp

theorem runProbes_preserves (page : PageModel) (faults : ProbeFaults)
    (r : ProductPageTestResult) :
    (runProbes page faults r).success = r.success ∧
    (runProbes page faults r).missingElements = r.missingElements := by
  unfold runProbes
  constructor
  · rw [(testMetaInformation_preserves _ _ _).1, (testProductAvailability_preserves _ _ _).1,
      (testProductVariants_preserves _ _ _).1, (testAddToCartButton_preserves _ _ _).1,
      (testProductDescription_preserves _ _ _).1, (testProductPrice_preserves _ _ _).1,
      (testProductTitle_preserves _ _ _).1]
  · rw [(testMetaInformation_preserves _ _ _).2, (testProductAvailability_preserves _ _ _).2,
      (testProductVariants_preserves _ _ _).2, (testAddToCartButton_preserves _ _ _).2,
      (testProductDescription_preserves _ _ _).2, (testProductPrice_preserves _ _ _).2,
      (testProductTitle_preserves _ _ _).2]

/-! ## Claim C1 -/

/-- C1 (counterexample): on the navigation-failure path `testProductPage`
returns success = false with all seven flags false, yet `missingElements`
is the empty list rather than the seven false-flag names, because the
derivation step sits inside the `try` block that the `catch` skips. -/
theorem testProductPage_navFailure_cex :
    (testProductPage (Except.error "timeout") noFaults 0 "a").success = false ∧
    falseFlagNames (testProductPage (Except.error "timeout") noFaults 0 "a").elements =
      ["title", "price", "description", "addToCartButton", "variants",
       "availability", "metaInfo"] ∧
    (testProductPage (Except.error "timeout") noFaults 0 "a").missingElements = [] := by
  decide

/-- C1 (amended): for every `ProductPageTestResult` returned by
`testProductPage`, success is true iff all seven feature flags are true and
the error list is empty; when navigation succeeds, `missingElements` is
exactly the names of the false flags if success is false and empty if
success is true; on the navigation-failure path `missingElements` stays
empty (the derivation is skipped) even though success is false. -/
theorem testProductPage_success_missing (nav : Except String PageModel)
    (faults : ProbeFaults) (elapsed : Nat) (url : String) :
    ((testProductPage nav faults elapsed url).success = true ↔
      allElementsPresent (testProductPage nav faults elapsed url).elements = true ∧
      (testProductPage nav faults elapsed url).errors = []) ∧
    (∀ e, nav = Except.error e →
      (testProductPage nav faults elapsed url).missingElements = []) ∧
    (∀ page, nav = Except.ok page →
      ((testProductPage nav faults elapsed url).success = true →
        (testProductPage nav faults elapsed url).missingElements = []) ∧
      ((testProductPage nav faults elapsed url).success = false →
        (testProductPage nav faults elapsed url).missingElements =
          falseFlagNames (testProductPage nav faults elapsed url).elements)) := by
  cases nav with
  | error e =>
    refine ⟨?_, fun _ _ => rfl, fun page hp => by cases hp⟩
    simp [testProductPage, allElementsPresent]
  | ok page =>
    have hpres := runProbes_preserves page faults
      { url := url, success := false, loadTime := elapsed,
        elements := ⟨false, false, false, false, false, false, false⟩,
        missingElements := [], errors := [] }
    simp only [testProductPage]
    split
    case isTrue h =>
      refine ⟨?_, ?_, ?_⟩
      · simp only [Bool.and_eq_true] at h
        simp [h.1, List.isEmpty_iff.mp h.2]
      · intro e hp
        cases hp
      · intro page' hp
        refine ⟨fun _ => ?_, fun hfalse => ?_⟩
        · simpa using hpres.2
        · dsimp only at hfalse
          rw [h] at hfalse
          exact Bool.noConfusion hfalse
    case isFalse h =>
      refine ⟨?_, ?_, ?_⟩
      · simp only [Bool.not_eq_true] at h
        simp only [h]
        constructor
        · intro hx
          cases hx
        · rintro ⟨h1, h2⟩
          rw [h1, h2] at h
          simp at h
      · intro e hp
        cases hp
      · intro page' hp
        refine ⟨fun htrue => ?_, fun _ => by simp⟩
        simp only [Bool.not_eq_true] at h
        rw [h] at htrue
        cases htrue

/-- C1 (witness): on a page where nothing matches, five features are
reported missing (variants and availability default to true). -/
theorem testProductPage_success_missing_witness :
    (testProductPage (Except.ok emptyPage) noFaults 120 "a").missingElements =
      ["title", "price", "description", "addToCartButton", "metaInfo"] := by
  have h := (testProductPage_success_missing (Except.ok emptyPage) noFaults 120 "a").2.2
    emptyPage rfl
  have hs : (testProductPage (Except.ok emptyPage) noFaults 120 "a").success = false := by
    decide
  rw [h.2 hs]
  decide

/-! ## Claims C2 and C10: the retry wrapper -/

theorem runWithRetryGo_allFail {ε α : Type} (testFn : Nat → Except ε α) (maxA : Nat)
    (errAt : Nat → ε) :
    ∀ (remaining attempt : Nat) (lastError : Option ε),
      attempt + remaining = maxA + 1 →
      (∀ n, attempt ≤ n → n ≤ maxA → testFn n = Except.error (errAt n)) →
      runWithRetryGo testFn maxA remaining attempt lastError =
        ⟨Except.error (if remaining = 0 then lastError else some (errAt maxA)),
         remaining, (List.range' attempt (remaining - 1)).map fun n => 1000 * n⟩ := by
  intro remaining
  induction remaining with
  | zero =>
    intro attempt lastError hsum hfail
    simp [runWithRetryGo]
  | succ m ih =>
    intro attempt lastError hsum hfail
    have hle : attempt ≤ maxA := by omega
    have hf := hfail attempt le_rfl hle
    simp only [runWithRetryGo, hf]
    rw [ih (attempt + 1) (some (errAt attempt)) (by omega) fun n h1 h2 => hfail n (by omega) h2]
    rcases Nat.eq_zero_or_pos m with hm | hm
    · subst hm
      have ha : attempt = maxA := by omega
      subst ha
      simp
    · have hlt : attempt < maxA := by omega
      dsimp only
      rw [if_neg (by omega : ¬ m = 0), if_neg (by omega : ¬ m + 1 = 0), if_pos hlt]
      have hrange : m + 1 - 1 = (m - 1) + 1 := by omega
      rw [hrange, List.range'_succ, List.map_cons]
      rfl

theorem runWithRetryGo_firstSuccess {ε α : Type} (testFn : Nat → Except ε α) (maxA k : Nat)
    (v : α) (hk : k ≤ maxA) (hsucc : testFn k = Except.ok v)
    (hfailBefore : ∀ n, 1 ≤ n → n < k → ∃ e, testFn n = Except.error e) :
    ∀ (remaining attempt : Nat) (lastError : Option ε),
      attempt + remaining = maxA + 1 → 1 ≤ attempt → attempt ≤ k →
      runWithRetryGo testFn maxA remaining attempt lastError =
        ⟨Except.ok v, k + 1 - attempt, (List.range' attempt (k - attempt)).map fun n => 1000 * n⟩ := by
  intro remaining
  induction remaining with
  | zero =>
    intro attempt lastError hsum h1 hak
    omega
  | succ m ih =>
    intro attempt lastError hsum h1 hak
    by_cases heq : attempt = k
    · subst heq
      simp only [runWithRetryGo, hsucc]
      have hc : attempt + 1 - attempt = 1 := by omega
      have hd : attempt - attempt = 0 := by omega
      rw [hc, hd]
      simp
    · have haltk : attempt < k := lt_of_le_of_ne hak heq
      obtain ⟨e, he⟩ := hfailBefore attempt h1 haltk
      simp only [runWithRetryGo, he]
      rw [ih (attempt + 1) (some e) (by omega) (by omega) (by omega)]
      have hlt : attempt < maxA := by omega
      simp only [hlt, if_pos hlt]
      have hcalls : k + 1 - (attempt + 1) + 1 = k + 1 - attempt := by omega
      have hrange : k - attempt = (k - (attempt + 1)) + 1 := by omega
      rw [hcalls, hrange, List.range'_succ, List.map_cons]
      rfl

/-- C2: for `maxAttempts ≥ 1`, `runWithRetry` invokes the operation exactly
`maxAttempts` times and rethrows the last error when every attempt fails,
and invokes it exactly `k ≤ maxAttempts` times returning the success value
when it first succeeds at attempt `k`; after each failed attempt `n` that
leaves attempts remaining it waits `1000 * n` ms, so the awaited delays are
`[1000 * 1, …]` up to the last retried attempt. -/
theorem runWithRetry_attempt_counts {ε α : Type} (maxAttempts : Nat) (hmax : 1 ≤ maxAttempts) :
    (∀ (testFn : Nat → Except ε α) (errAt : Nat → ε),
      (∀ n, 1 ≤ n → n ≤ maxAttempts → testFn n = Except.error (errAt n)) →
      runWithRetry (maxAttempts : Int) testFn =
        ⟨Except.error (some (errAt maxAttempts)), maxAttempts,
         (List.range' 1 (maxAttempts - 1)).map fun n => 1000 * n⟩) ∧
    (∀ (testFn : Nat → Except ε α) (k : Nat) (v : α),
      1 ≤ k → k ≤ maxAttempts →
      (∀ n, 1 ≤ n → n < k → ∃ e, testFn n = Except.error e) →
      testFn k = Except.ok v →
      runWithRetry (maxAttempts : Int) testFn =
        ⟨Except.ok v, k, (List.range' 1 (k - 1)).map fun n => 1000 * n⟩) := by
  constructor
  · intro testFn errAt hfail
    unfold runWithRetry
    rw [Int.toNat_natCast]
    rw [runWithRetryGo_allFail testFn maxAttempts errAt maxAttempts 1 none (by omega) hfail]
    rw [if_neg (by omega : ¬ maxAttempts = 0)]
  · intro testFn k v hk1 hkm hfail hsucc
    unfold runWithRetry
    rw [Int.toNat_natCast]
    rw [runWithRetryGo_firstSuccess testFn maxAttempts k v hkm hsucc hfail
      maxAttempts 1 none (by omega) le_rfl hk1]
    rw [show k + 1 - 1 = k from by omega]

/-- C2 (witness): with three attempts, an always-failing operation is
invoked three times with delays 1000 ms and 2000 ms, and an operation first
succeeding at attempt 3 is invoked three times and its value returned. -/
theorem runWithRetry_attempt_counts_witness :
    runWithRetry ((3 : Nat) : Int) (fun _ => (Except.error "boom" : Except String Nat)) =
      ⟨Except.error (some "boom"), 3, [1000, 2000]⟩ ∧
    runWithRetry ((3 : Nat) : Int)
        (fun n => if n = 3 then Except.ok 7 else (Except.error "boom" : Except String Nat)) =
      ⟨Except.ok 7, 3, [1000, 2000]⟩ := by
  constructor
  · have h := (runWithRetry_attempt_counts (ε := String) (α := Nat) 3 (by omega)).1
      (fun _ => Except.error "boom") (fun _ => "boom") (fun n h1 h2 => rfl)
    rw [h]
    rfl
  · have h := (runWithRetry_attempt_counts (ε := String) (α := Nat) 3 (by omega)).2
      (fun n => if n = 3 then Except.ok 7 else Except.error "boom") 3 7 (by omega) le_rfl
      (fun n h1 h2 =>
        ⟨"boom", show (if n = 3 then Except.ok 7 else Except.error "boom") = Except.error "boom"
          from if_neg (by omega : ¬ n = 3)⟩)
      (show (if 3 = 3 then Except.ok 7 else (Except.error "boom" : Except String Nat)) =
          Except.ok 7 from if_pos rfl)
    rw [h]
    rfl

/-- C10: when the configured `retryAttempts` is ≤ 0, the retry loop body
never runs, so the operation is never invoked and `throw lastError!` fires
with the never-assigned `lastError`, i.e. the call throws `undefined`
(modelled as `Except.error none`, a non-`Error` value). -/
theorem runWithRetry_nonpositive_attempts {ε α : Type} (retryAttempts : Int)
    (h : retryAttempts ≤ 0) (testFn : Nat → Except ε α) :
    runWithRetry retryAttempts testFn = ⟨Except.error none, 0, []⟩ := by
  unfold runWithRetry
  rw [Int.toNat_of_nonpos h]
  rfl

/-- C10 (witness): with `retryAttempts = -2` the operation is never invoked
and the thrown value is the undefined marker. -/
theorem runWithRetry_nonpositive_attempts_witness :
    runWithRetry (-2 : Int) (fun _ => (Except.error "boom" : Except String Nat)) =
      ⟨Except.error none, 0, []⟩ :=
  runWithRetry_nonpositive_attempts (-2) (by norm_num) (fun _ => Except.error "boom")

/-! ## Deduplication and summary lemmas -/

theorem mem_jsSetDedupGo (l : List String) :
    ∀ (seen : List String) (x : String),
      x ∈ jsSetDedupGo seen l ↔ x ∈ l ∧ x ∉ seen := by
  induction l with
  | nil => intro seen x; simp [jsSetDedupGo]
  | cons a as ih =>
    intro seen x
    by_cases ha : a ∈ seen
    · rw [jsSetDedupGo, if_pos ha, ih]
      simp only [List.mem_cons]
      constructor
      · rintro ⟨hx, hns⟩
        exact ⟨Or.inr hx, hns⟩
      · rintro ⟨hx | hx, hns⟩
        · exact absurd (hx ▸ ha) hns
        · exact ⟨hx, hns⟩
    · rw [jsSetDedupGo, if_neg ha]
      simp only [List.mem_cons, ih, List.mem_cons, not_or]
      constructor
      · rintro (rfl | ⟨hx, hxa, hns⟩)
        · exact ⟨Or.inl rfl, ha⟩
        · exact ⟨Or.inr hx, hns⟩
      · rintro ⟨rfl | hx, hns⟩
        · exact Or.inl rfl
        · by_cases hxa : x = a
          · exact Or.inl hxa
          · exact Or.inr ⟨hx, hxa, hns⟩

theorem nodup_jsSetDedupGo (l : List String) :
    ∀ seen : List String, (jsSetDedupGo seen l).Nodup := by
  induction l with
  | nil => intro seen; simp [jsSetDedupGo]
  | cons a as ih =>
    intro seen
    by_cases ha : a ∈ seen
    · rw [jsSetDedupGo, if_pos ha]
      exact ih seen
    · rw [jsSetDedupGo, if_neg ha]
      refine List.nodup_cons.mpr ⟨?_, ih (a :: seen)⟩
      intro hmem
      exact ((mem_jsSetDedupGo as (a :: seen) a).mp hmem).2 (List.mem_cons_self a seen)

theorem mem_jsSetDedup (l : List String) (x : String) :
    x ∈ jsSetDedup l ↔ x ∈ l := by
  rw [jsSetDedup, mem_jsSetDedupGo]
  simp

theorem scanImageResult_mem_mono (acc : SummaryAcc) (r : ImageTestResult) (x : String)
    (h : x ∈ acc.recommendations) : x ∈ (scanImageResult acc r).recommendations := by
  unfold scanImageResult
  split <;> simp [h]

theorem scanErrorResult_mem_mono (acc : SummaryAcc) (r : ErrorTestResult) (x : String)
    (h : x ∈ acc.recommendations) : x ∈ (scanErrorResult acc r).recommendations := by
  unfold scanErrorResult
  dsimp only
  split <;> split <;> simp [h]

theorem foldl_scanImageResult_mem_mono (l : List ImageTestResult) :
    ∀ (acc : SummaryAcc) (x : String), x ∈ acc.recommendations →
      x ∈ (l.foldl scanImageResult acc).recommendations := by
  induction l with
  | nil => intro acc x h; simpa using h
  | cons a as ih =>
    intro acc x h
    rw [List.foldl_cons]
    exact ih _ x (scanImageResult_mem_mono acc a x h)

theorem foldl_scanErrorResult_mem_mono (l : List ErrorTestResult) :
    ∀ (acc : SummaryAcc) (x : String), x ∈ acc.recommendations →
      x ∈ (l.foldl scanErrorResult acc).recommendations := by
  induction l with
  | nil => intro acc x h; simpa using h
  | cons a as ih =>
    intro acc x h
    rw [List.foldl_cons]
    exact ih _ x (scanErrorResult_mem_mono acc a x h)

theorem foldl_scanImageResult_adds (l : List ImageTestResult) :
    ∀ (acc : SummaryAcc) (r : ImageTestResult), r ∈ l → 0 < r.images.failed →
      ("Fix " ++ toString r.images.failed ++ " broken images")
        ∈ (l.foldl scanImageResult acc).recommendations := by
  induction l with
  | nil => intro acc r hr; cases hr
  | cons a as ih =>
    intro acc r hr hf
    rw [List.foldl_cons]
    rcases List.mem_cons.mp hr with rfl | hr'
    · refine foldl_scanImageResult_mem_mono as _ _ ?_
      unfold scanImageResult
      rw [if_pos hf]
      simp
    · exact ih _ r hr' hf

/-! ## Claim C3 -/

/-- C3 (counterexample): spec scenario C's image result (10 images, one
broken via 404, nine loaded, none failed) produces no recommendation at
all: `generateSummary` keys the "Fix N broken images" message on
`images.failed`, which is 0 here, not on `images.broken`. -/
theorem generateSummary_brokenOnly_cex :
    imgBrokenOnly.images.broken = 1 ∧ imgBrokenOnly.success = false ∧
    (generateSummary [] [imgBrokenOnly] []).recommendations = [] := by
  decide

/-- C3 (amended): the "Fix N broken images" recommendation is keyed on the
`failed` count, not the `broken` count: whenever some `ImageTestResult` in
the run has `images.failed ≥ 1`, the summary contains the recommendation
with `N` equal to that failed count (the counterexample above shows a
`broken ≥ 1`, `failed = 0` result yields no such recommendation). -/
theorem generateSummary_failed_images_recommendation
    (ppr : List ProductPageTestResult) (ir : List ImageTestResult)
    (er : List ErrorTestResult) (r : ImageTestResult)
    (hmem : r ∈ ir) (hfail : 0 < r.images.failed) :
    ("Fix " ++ toString r.images.failed ++ " broken images")
      ∈ (generateSummary ppr ir er).recommendations := by
  simp only [generateSummary]
  rw [mem_jsSetDedup]
  exact foldl_scanErrorResult_mem_mono er _ _
    (foldl_scanImageResult_adds ir _ r hmem hfail)

/-- C3 (witness): an image result with two failed images yields the
"Fix 2 broken images" recommendation. -/
theorem generateSummary_failed_images_recommendation_witness :
    "Fix 2 broken images" ∈ (generateSummary [] [imgFailedTwo] []).recommendations := by
  have h := generateSummary_failed_images_recommendation [] [imgFailedTwo] []
    imgFailedTwo (List.mem_singleton.mpr rfl) (by decide)
  have hs : "Fix " ++ toString imgFailedTwo.images.failed ++ " broken images"
      = "Fix 2 broken images" := by decide
  rwa [hs] at h

/-! ## Claim C6 -/

/-- C6: the recommendations list of every generated summary contains no
duplicate strings, however many results trigger the same message. -/
theorem generateSummary_recommendations_nodup
    (ppr : List ProductPageTestResult) (ir : List ImageTestResult)
    (er : List ErrorTestResult) :
    (generateSummary ppr ir er).recommendations.Nodup := by
  simp only [generateSummary]
  exact nodup_jsSetDedupGo _ []

/-! ## Claim C4 -/

/-- C4 (counterexample): a visit that captured one 404 response before
navigation threw yields `totalErrors = 1` while the three collected lists
hold 2 entries (the 404 network error and the navigation-failure console
entry), so `totalErrors` is not the sum of the list lengths. -/
theorem detectErrors_navFailure_cex :
    (detectErrors errEnvNavFail "a").totalErrors = 1 ∧
    (detectErrors errEnvNavFail "a").consoleErrors.length +
      (detectErrors errEnvNavFail "a").networkErrors.length +
      (detectErrors errEnvNavFail "a").resourceErrors.length = 2 := by
  decide

/-- C4 (amended): when navigation succeeds, `totalErrors` equals the sum of
the three collected lists' lengths; on the navigation-failure path
`totalErrors` is exactly 1 (the `catch` increments the still-zero counter),
regardless of what the listeners had already collected. -/
theorem detectErrors_totalErrors_partition (env : ErrorEnv) (url : String) :
    (env.navError = none →
      (detectErrors env url).totalErrors =
        (detectErrors env url).consoleErrors.length +
          (detectErrors env url).networkErrors.length +
          (detectErrors env url).resourceErrors.length) ∧
    (∀ msg, env.navError = some msg → (detectErrors env url).totalErrors = 1) := by
  constructor
  · intro h
    simp [detectErrors, h]
  · intro msg h
    simp [detectErrors, h]

/-- C4 (witness): on a clean navigation with one captured console error,
`totalErrors` equals the sum of the list lengths. -/
theorem detectErrors_totalErrors_partition_witness :
    (detectErrors errEnvOk "a").totalErrors =
      (detectErrors errEnvOk "a").consoleErrors.length +
        (detectErrors errEnvOk "a").networkErrors.length +
        (detectErrors errEnvOk "a").resourceErrors.length :=
  (detectErrors_totalErrors_partition errEnvOk "a").1 rfl

/-! ## Run-loop counting lemmas -/

theorem foldl_processUrl_totalTests (behave : CheckBehavior) (urls : List String) :
    ∀ acc : TestReport, (urls.foldl (processUrl behave) acc).totalTests = acc.totalTests := by
  induction urls with
  | nil => intro acc; rfl
  | cons u us ih =>
    intro acc
    rw [List.foldl_cons, ih]
    rfl

theorem foldl_processUrl_passed (behave : CheckBehavior) (urls : List String) :
    ∀ acc : TestReport,
      (urls.foldl (processUrl behave) acc).passedTests =
        acc.passedTests + (checkOutcomes urls behave).count true := by
  induction urls with
  | nil => intro acc; simp [checkOutcomes]
  | cons u us ih =>
    intro acc
    rw [List.foldl_cons, ih]
    simp only [checkOutcomes, List.flatMap_cons, List.count_append, List.count_cons,
      List.count_nil, processUrl]
    cases (behave.product u).success <;> cases (behave.image u).success <;>
      cases (behave.error u).success <;> simp <;> omega

theorem foldl_processUrl_passed_failed (behave : CheckBehavior) (urls : List String) :
    ∀ acc : TestReport,
      (urls.foldl (processUrl behave) acc).passedTests +
        (urls.foldl (processUrl behave) acc).failedTests =
        acc.passedTests + acc.failedTests + 3 * urls.length := by
  induction urls with
  | nil => intro acc; simp
  | cons u us ih =>
    intro acc
    rw [List.foldl_cons, ih]
    simp only [processUrl, List.length_cons]
    cases (behave.product u).success <;> cases (behave.image u).success <;>
      cases (behave.error u).success <;> simp <;> omega

theorem checkOutcomes_length (urls : List String) (behave : CheckBehavior) :
    (checkOutcomes urls behave).length = 3 * urls.length := by
  induction urls with
  | nil => simp [checkOutcomes]
  | cons u us ih =>
    simp only [checkOutcomes, List.flatMap_cons, List.length_append, List.length_cons,
      List.length_nil, List.length_cons] at ih ⊢
    omega

theorem runTests_totalTests (config : TestConfig) (behave : CheckBehavior)
    (timestamp : String) (duration : Nat) :
    (runTests config behave timestamp duration).totalTests = 3 * config.productUrls.length := by
  simp only [runTests]
  rw [foldl_processUrl_totalTests]
  dsimp only
  omega

theorem runTests_passedTests (config : TestConfig) (behave : CheckBehavior)
    (timestamp : String) (duration : Nat) :
    (runTests config behave timestamp duration).passedTests =
      (checkOutcomes config.productUrls behave).count true := by
  simp only [runTests]
  rw [foldl_processUrl_passed]
  simp

theorem runTests_passed_failed (config : TestConfig) (behave : CheckBehavior)
    (timestamp : String) (duration : Nat) :
    (runTests config behave timestamp duration).passedTests +
      (runTests config behave timestamp duration).failedTests =
      3 * config.productUrls.length := by
  simp only [runTests]
  rw [foldl_processUrl_passed_failed]
  simp

/-! ## Claim C9 -/

/-- C9: every completed `runTests` report satisfies
`passedTests + failedTests = totalTests = 3 × (number of product URLs)`:
each of the three checks per URL bumps exactly one of the two counters. -/
theorem runTests_counter_partition (config : TestConfig) (behave : CheckBehavior)
    (timestamp : String) (duration : Nat) :
    (runTests config behave timestamp duration).passedTests +
      (runTests config behave timestamp duration).failedTests =
      (runTests config behave timestamp duration).totalTests ∧
    (runTests config behave timestamp duration).totalTests =
      3 * config.productUrls.length := by
  constructor
  · rw [runTests_passed_failed, runTests_totalTests]
  · exact runTests_totalTests config behave timestamp duration

/-! ## Claim C5 -/

theorem successRate_threshold (rep : TestReport) (h : 0 < rep.totalTests) :
    ((0.8 : ℚ) ≤ cliSuccessRate rep) ↔ 4 * rep.totalTests ≤ 5 * rep.passedTests := by
  unfold cliSuccessRate
  have ht : (0 : ℚ) < (rep.totalTests : ℚ) := by exact_mod_cast h
  rw [le_div_iff₀ ht, show (0.8 : ℚ) = 4 / 5 from by norm_num]
  constructor
  · intro hx
    have h5 : (4 : ℚ) * rep.totalTests ≤ 5 * rep.passedTests := by linarith
    exact_mod_cast h5
  · intro hx
    have h5 : (4 : ℚ) * rep.totalTests ≤ 5 * rep.passedTests := by exact_mod_cast hx
    linarith

/-- C5: for every completed run (non-empty validated configuration), the
CLI exits 0 iff the pass rate over the flattened 3 × N individual check
outcomes reaches 80% (`4 * total ≤ 5 * passed` with `total = 3 × N` the
number of individual checks, not of URLs), and exits 1 otherwise. -/
theorem cliExitCode_threshold (config : TestConfig) (behave : CheckBehavior)
    (timestamp : String) (duration : Nat)
    (hbase : config.baseUrl ≠ "") (hurls : config.productUrls ≠ []) :
    (cliTestCommand config behave timestamp duration).browserLaunched = true ∧
    ((cliTestCommand config behave timestamp duration).exitCode = 0 ↔
      4 * (checkOutcomes config.productUrls behave).length ≤
        5 * (checkOutcomes config.productUrls behave).count true) ∧
    ((cliTestCommand config behave timestamp duration).exitCode = 1 ↔
      ¬ 4 * (checkOutcomes config.productUrls behave).length ≤
        5 * (checkOutcomes config.productUrls behave).count true) ∧
    (checkOutcomes config.productUrls behave).length = 3 * config.productUrls.length := by
  have hcond : ¬ (config.baseUrl = "" ∨ config.productUrls.length = 0) := by
    push_neg
    exact ⟨hbase, fun h0 => hurls (List.length_eq_zero.mp h0)⟩
  have hlen : 0 < config.productUrls.length := List.length_pos.mpr hurls
  have htot := runTests_totalTests config behave timestamp duration
  have hpass := runTests_passedTests config behave timestamp duration
  have hthr := successRate_threshold (runTests config behave timestamp duration)
    (by rw [htot]; omega)
  rw [htot, hpass] at hthr
  unfold cliTestCommand
  rw [if_neg hcond]
  dsimp only
  by_cases hrate : (0.8 : ℚ) ≤ cliSuccessRate (runTests config behave timestamp duration)
  · rw [if_pos hrate]
    have hineq := hthr.mp hrate
    refine ⟨rfl, ?_, ?_, checkOutcomes_length _ _⟩
    · rw [checkOutcomes_length]
      exact iff_of_true rfl hineq
    · rw [checkOutcomes_length]
      exact iff_of_false (by decide) (not_not_intro hineq)
  · rw [if_neg hrate]
    have hineq : ¬ 4 * (3 * config.productUrls.length) ≤
        5 * (checkOutcomes config.productUrls behave).count true :=
      fun hc => hrate (hthr.mpr hc)
    refine ⟨rfl, ?_, ?_, checkOutcomes_length _ _⟩
    · rw [checkOutcomes_length]
      exact iff_of_false (by decide) hineq
    · rw [checkOutcomes_length]
      exact iff_of_true rfl hineq

/-- C5 (witness): with two URLs and five of the six checks passing
(83.3% ≥ 80%), the CLI exits 0. -/
theorem cliExitCode_threshold_witness :
    (cliTestCommand cfgTwo behaveFiveOfSix "t" 0).exitCode = 0 := by
  have h := cliExitCode_threshold cfgTwo behaveFiveOfSix "t" 0 (by decide) (by decide)
  exact h.2.1.mpr (by decide)

/-! ## Claim C7 -/

/-- C7: an empty base URL or an empty product URL list is rejected — the
CLI exits 1 and the HTTP handler answers 400 — before any browser work
begins. -/
theorem config_validation_rejects (config : TestConfig) (behave : CheckBehavior)
    (timestamp : String) (duration : Nat)
    (h : config.baseUrl = "" ∨ config.productUrls = []) :
    cliTestCommand config behave timestamp duration = ⟨1, false⟩ ∧
    httpTestHandler config = ⟨400, false⟩ := by
  have h' : config.baseUrl = "" ∨ config.productUrls.length = 0 := by
    rcases h with h | h
    · exact Or.inl h
    · exact Or.inr (by rw [h]; rfl)
  constructor
  · unfold cliTestCommand
    rw [if_pos h']
  · unfold httpTestHandler
    rw [if_pos h']

/-- C7 (witness): a configuration with an empty base URL is rejected by
both entry points with no browser launched. -/
theorem config_validation_rejects_witness :
    cliTestCommand cfgNoBase behaveFiveOfSix "t" 0 = ⟨1, false⟩ ∧
    httpTestHandler cfgNoBase = ⟨400, false⟩ :=
  config_validation_rejects cfgNoBase behaveFiveOfSix "t" 0 (Or.inl rfl)

/-! ## Claim C8: the price regex -/

theorem mem_optCurrencySymbol_suffix (cs : List Char) :
    ∀ cs1, cs1 ∈ optCurrencySymbol cs → cs1 <:+ cs := by
  cases cs with
  | nil =>
    intro cs1 h
    simp only [optCurrencySymbol, List.mem_singleton] at h
    subst h
    exact List.nil_suffix
  | cons c rest =>
    intro cs1 h
    simp only [optCurrencySymbol] at h
    split at h <;>
      simp only [List.mem_cons, List.mem_singleton, List.not_mem_nil, or_false] at h
    · rcases h with rfl | rfl
      · exact List.suffix_refl _
      · exact List.suffix_cons _ _
    · subst h
      exact List.suffix_refl _

theorem mem_whitespaceRemainders_suffix (cs : List Char) :
    ∀ cs1, cs1 ∈ whitespaceRemainders cs → cs1 <:+ cs := by
  induction cs with
  | nil =>
    intro cs1 h
    simp only [whitespaceRemainders, List.mem_singleton] at h
    subst h
    exact List.nil_suffix
  | cons c rest ih =>
    intro cs1 h
    unfold whitespaceRemainders at h
    rcases List.mem_cons.mp h with rfl | h'
    · exact List.suffix_refl _
    · by_cases hc : c.isWhitespace = true
      · rw [if_pos hc] at h'
        exact (ih cs1 h').trans (List.suffix_cons c rest)
      · rw [if_neg hc] at h'
        cases h'

theorem digitsRemainders_digit (cs : List Char) :
    ∀ cs3, cs3 ∈ digitsRemainders cs → ∃ c ∈ cs, c.isDigit = true := by
  induction cs with
  | nil =>
    intro cs3 h
    simp [digitsRemainders] at h
  | cons c rest ih =>
    intro cs3 h
    unfold digitsRemainders at h
    by_cases hc : c.isDigit = true
    · exact ⟨c, List.mem_cons_self _ _, hc⟩
    · rw [if_neg hc] at h
      cases h

theorem self_mem_optCurrencySymbol (cs : List Char) : cs ∈ optCurrencySymbol cs := by
  cases cs with
  | nil => simp [optCurrencySymbol]
  | cons c rest =>
    simp only [optCurrencySymbol]
    split <;> simp

theorem self_mem_whitespaceRemainders (cs : List Char) : cs ∈ whitespaceRemainders cs := by
  cases cs with
  | nil => simp [whitespaceRemainders]
  | cons c rest =>
    unfold whitespaceRemainders
    exact List.mem_cons_self _ _

/-- The unanchored price regex finds a match exactly when the string
contains a digit: the currency symbol, whitespace and decimal parts are all
optional, so the `\d+` core is the only mandatory element. -/
theorem priceRegexTest_iff_digit (s : String) :
    priceRegexTest s = true ↔ ∃ c ∈ s.data, c.isDigit = true := by
  unfold priceRegexTest
  rw [List.any_eq_true]
  constructor
  · rintro ⟨t, ht, hmatch⟩
    have hsuf : t <:+ s.data := (List.mem_tails t s.data).mp ht
    unfold matchPriceAt at hmatch
    rw [List.any_eq_true] at hmatch
    obtain ⟨cs1, hcs1, hm1⟩ := hmatch
    rw [List.any_eq_true] at hm1
    obtain ⟨cs2, hcs2, hm2⟩ := hm1
    rw [List.any_eq_true] at hm2
    obtain ⟨cs3, hcs3, _⟩ := hm2
    obtain ⟨c, hc, hdig⟩ := digitsRemainders_digit cs2 cs3 hcs3
    have h1 := mem_optCurrencySymbol_suffix t cs1 hcs1
    have h2 := mem_whitespaceRemainders_suffix cs1 cs2 hcs2
    exact ⟨c, hsuf.subset (h1.subset (h2.subset hc)), hdig⟩
  · rintro ⟨c, hc, hdig⟩
    obtain ⟨l1, l2, heq⟩ := List.append_of_mem hc
    refine ⟨c :: l2, (List.mem_tails _ _).mpr ⟨l1, heq.symm⟩, ?_⟩
    unfold matchPriceAt
    rw [List.any_eq_true]
    refine ⟨c :: l2, self_mem_optCurrencySymbol _, ?_⟩
    rw [List.any_eq_true]
    refine ⟨c :: l2, self_mem_whitespaceRemainders _, ?_⟩
    rw [List.any_eq_true]
    refine ⟨l2, ?_, ?_⟩
    · unfold digitsRemainders
      rw [if_pos hdig]
      exact List.mem_cons_self _ _
    · simp [decimalRemainders]

/-- The spec-side currency pattern (under `regex.test` containment
semantics) is also equivalent to containing a digit. -/
theorem specCurrencyMatch_iff_digit (cs : List Char) :
    specCurrencyMatch cs ↔ ∃ c ∈ cs, c.isDigit = true := by
  constructor
  · rintro ⟨pre, sym, ws, ds, dec, rest, rfl, hsym, hws, hne, hds, hdec⟩
    obtain ⟨d, hd⟩ := List.exists_mem_of_ne_nil ds hne
    refine ⟨d, ?_, hds d hd⟩
    simp only [List.mem_append]
    tauto
  · rintro ⟨c, hc, hdig⟩
    obtain ⟨l1, l2, rfl⟩ := List.append_of_mem hc
    exact ⟨l1, [], [], [c], [], l2, by simp, Or.inl rfl, by simp, by simp,
      by simpa using hdig, Or.inl rfl⟩

/-- C8: `isValidPrice(text)` is true iff the trimmed text matches the
currency pattern — an optional currency symbol, then a number, optionally
with a decimal separator — under JavaScript `regex.test` semantics (the
unanchored pattern may match anywhere inside the text); in particular
`isValidPrice("N/A")` is false. -/
theorem isValidPrice_currency_pattern :
    (∀ text : String, isValidPrice text = true ↔ specCurrencyMatch (jsTrim text).data) ∧
    isValidPrice "N/A" = false := by
  constructor
  · intro text
    rw [isValidPrice, priceRegexTest_iff_digit, specCurrencyMatch_iff_digit]
  · decide

end ShopAudit
